import Mathlib

/-
Verification development for the eventstream RPC client in
src/lib/eventstream_rpc.ts (classes RpcClient and OperationBase).

The TypeScript file is a single-threaded asynchronous state machine: each
method body runs to completion between suspension points (awaits, timers,
scheduled callbacks).  We embed every such atomic block as a pure Lean
function on an explicit state record, and model an execution of the client
as a list of these atomic blocks applied in an arbitrary interleaving
(the Step type and runSteps below).  Promise settlement is first-wins, as
in JS: the settleWith helper records only the first resolve/reject that
the caller of connect can observe.

External collaborators (the aws-crt transport connection and streams) are
modelled at their interface boundary only: a transport action either
succeeds or fails, chosen nondeterministically by step parameters, and the
protocol-message constants mirror the aws-crt eventstream module
(ConnectionAccepted = 1, TerminateStream = 2).
-/

namespace EventstreamRpc

/-- Mirrors enum RpcErrorType in the source. -/
inductive RpcErrorType where
  | SerializationError
  | DeserializationError
  | ProtocolError
  | InternalError
  | ValidationError
  | ClientStateError
  | NetworkError
deriving DecidableEq

/-- Mirrors the CrtError values the source constructs: either from a numeric
error code or from a message string. -/
inductive CrtError where
  | ofCode (code : Nat)
  | ofString (s : String)
deriving DecidableEq

/-- Mirrors interface RpcError: a broad category, a plain language
description, and an optional inner error. -/
structure RpcError where
  type : RpcErrorType
  description : String
  internalError : Option CrtError
deriving DecidableEq

/-- Mirrors function createRpcError at the bottom of the source file. -/
def createRpcError (type : RpcErrorType) (description : String)
    (internalError : Option CrtError) : RpcError :=
  { type := type, description := description, internalError := internalError }

/-- Mirrors the eventstream.MessageType values used by the source
(aws-crt eventstream module). -/
inductive MessageType where
  | ApplicationMessage
  | ApplicationError
  | Ping
  | PingResponse
  | Connect
  | ConnectAck
deriving DecidableEq

/-- Mirrors eventstream.MessageFlags.ConnectionAccepted from aws-crt. -/
def MessageFlagsConnectionAccepted : Nat := 1

/-- Mirrors eventstream.MessageFlags.TerminateStream from aws-crt. -/
def MessageFlagsTerminateStream : Nat := 2

/-- The parts of an eventstream.Message the embedded code inspects: the
message type tag and the optional bit-flag field. -/
structure Message where
  type : MessageType
  flags : Option Nat
deriving DecidableEq

/-- Mirrors const DEFAULT_CONNECT_TIMEOUT_MS = 5000. -/
def DEFAULT_CONNECT_TIMEOUT_MS : Nat := 5000

/-- Mirrors the expression config.connectTimeoutMs ?? DEFAULT_CONNECT_TIMEOUT_MS
used when arming the connect timer. -/
def effectiveConnectTimeoutMs (connectTimeoutMs : Option Nat) : Nat :=
  connectTimeoutMs.getD DEFAULT_CONNECT_TIMEOUT_MS

/-- Mirrors enum ClientState in the source. -/
inductive ClientState where
  | None
  | Connecting
  | Connected
  | Finished
  | Closed
deriving DecidableEq

/-- The position of a ClientState in the progression
None, Connecting, Connected, Finished, Closed that the specification
declares monotone. -/
def ClientState.rank : ClientState → Nat
  | ClientState.None => 0
  | ClientState.Connecting => 1
  | ClientState.Connected => 2
  | ClientState.Finished => 3
  | ClientState.Closed => 4

/-- Mirrors enum OperationState in the source. -/
inductive OperationState where
  | None
  | Activated
  | Ended
  | Closed
deriving DecidableEq

/-- RpcError values built at each createRpcError call site of the source,
with the literal description strings of the source. -/
def connectionConstructionError (e : CrtError) : RpcError :=
  createRpcError RpcErrorType.InternalError "Failed to create eventstream connection" (some e)

/-- The rejection of connect when state is not None (source line 218). -/
def connectAlreadyCalledError : RpcError :=
  createRpcError RpcErrorType.ClientStateError "RpcClient.connect() can only be called once" none

/-- The rejection produced by the connect timer (source line 225). -/
def connectTimeoutError : RpcError :=
  createRpcError RpcErrorType.NetworkError "RpcClient.connect() timed out" none

/-- The rejection produced by a transport disconnect during the handshake
(source line 233). -/
def connectDisconnectedError : RpcError :=
  createRpcError RpcErrorType.NetworkError "RpcClient.connect() failed - connection closed" none

/-- The rejection produced when an await inside connect throws
(source line 266). -/
def connectFailedError (e : CrtError) : RpcError :=
  createRpcError RpcErrorType.InternalError "Failed to establish eventstream RPC connection" (some e)

/-- The rejection produced when the connack is missing or invalid
(source line 281). -/
def invalidConnackError : RpcError :=
  createRpcError RpcErrorType.ProtocolError "Failed to establish eventstream RPC connection - invalid connack" none

/-- The error thrown by registerUnclosedOperation when the client is not
connected or the registry is gone (source line 323). -/
def operationRegistrationError : RpcError :=
  createRpcError RpcErrorType.ClientStateError "Operation registration only allowed when the client is connected" none

/-- The error thrown by newStream when the client is not connected
(source line 389). -/
def newStreamStateError : RpcError :=
  createRpcError RpcErrorType.ClientStateError "New streams may only be created while the client is connected" none

/-- The error thrown by newStream when stream allocation throws
(source line 395). -/
def newStreamFailedError (e : CrtError) : RpcError :=
  createRpcError RpcErrorType.InternalError "Failed to create new event stream" (some e)

/-- The rejection of activate when operation state is not None
(source line 508). -/
def activateTwiceError : RpcError :=
  createRpcError RpcErrorType.ClientStateError "Eventstream operations may only have activate() invoked once" none

/-- The rejection produced when the stream activation promise rejects
(source line 524).  Note the description argument in the source is the
empty string literal. -/
def activateFailedError (e : CrtError) : RpcError :=
  createRpcError RpcErrorType.InternalError "" (some e)

/-- Promise settlement outcomes observable by the caller of connect or
activate. -/
inductive Settle where
  | resolved
  | rejected (e : RpcError)
deriving DecidableEq

/-- The state of one RpcClient instance, together with the event-loop
bookkeeping needed to replay the asynchronous continuations of the source:
which callbacks are still outstanding (timer, suspended handshake body,
scheduled closes and notification deliveries), which listeners are
installed, the first settlement observed on the promise returned by the
first connect call, and counters for the disconnection notifications that
were scheduled and delivered. -/
structure ClientModel where
  state : ClientState
  emitDisconnectOnClose : Bool
  disconnectionReason : Option CrtError
  unclosedOperations : Option (List Nat)
  connectCalled : Bool
  timerPending : Bool
  handshakePending : Bool
  listenerConnecting : Bool
  listenerPermanent : Bool
  disconnectFired : Bool
  pendingCloses : Nat
  pendingEmits : Nat
  emittedDisconnects : Nat
  observed : Option Settle
  everConnected : Bool
deriving DecidableEq

/-- First-wins promise settlement: only the first resolve or reject is
observable by the caller; later calls are no-ops in JS. -/
def settleWith (c : ClientModel) (s : Settle) : ClientModel :=
  match c.observed with
  | some _ => c
  | none => { c with observed := some s }

/-- The state of the client right after the RpcClient constructor ran:
state None, empty unclosed-operation set, emitDisconnectOnClose false,
and nothing scheduled. -/
def initClient : ClientModel :=
  { state := ClientState.None
    emitDisconnectOnClose := false
    disconnectionReason := none
    unclosedOperations := some []
    connectCalled := false
    timerPending := false
    handshakePending := false
    listenerConnecting := false
    listenerPermanent := false
    disconnectFired := false
    pendingCloses := 0
    pendingEmits := 0
    emittedDisconnects := 0
    observed := none
    everConnected := false }

/-- Transport-facing and scheduled side effects performed by the embedded
code, recorded for inspection. -/
inductive Eff where
  | transportConnect
  | streamActivate
  | emitEndedPlaceholder
  | removeFromClient
  | sendTerminate
  | scheduleErrorEmit
  | scheduleStreamClose
  | connectionClose
deriving DecidableEq

/-- The synchronous prefix of RpcClient.connect, source lines 217 to 240:
the state guard, then arming the timer, installing the connecting-phase
disconnection listener and moving state to Connecting before the first
await.  Returns the updated client, the rejection if the guard fired, and
the transport action the body is about to await. -/
def RpcClient.connectEntry (c : ClientModel) :
    ClientModel × Option RpcError × List Eff :=
  if c.state ≠ ClientState.None then
    (c, some connectAlreadyCalledError, [])
  else
    ({ c with
        timerPending := true
        listenerConnecting := true
        state := ClientState.Connecting
        handshakePending := true },
     none, [Eff.transportConnect])

/-- The body of the disconnection-notification block of RpcClient.close,
source lines 355 to 364: when a notification is owed, clear the flag, fill
in the default reason if none was captured, and schedule the emission for
the next tick. -/
def closeEmitPhase (c : ClientModel) : ClientModel :=
  if c.emitDisconnectOnClose then
    { c with
        emitDisconnectOnClose := false
        disconnectionReason :=
          some (c.disconnectionReason.getD (CrtError.ofString "User-initiated disconnect"))
        pendingEmits := c.pendingEmits + 1 }
  else c

/-- RpcClient.close restricted to the client-local fields, source lines
350 to 377: no-op when already Closed, otherwise the notification block,
then state to Closed and the operation registry detached.  The cascade
over the captured registry snapshot only touches the operations and, via
removeUnclosedOperation against the now-undefined registry, never changes
the client again; it is modelled in full in RpcClient.closeSystem. -/
def RpcClient.close (c : ClientModel) : ClientModel :=
  if c.state = ClientState.Closed then c
  else
    let c1 := closeEmitPhase c
    { c1 with state := ClientState.Closed, unclosedOperations := none }

/-- Mirrors RpcClient.removeUnclosedOperation, source lines 337 to 341:
delete from the registry when it still exists, otherwise do nothing. -/
def RpcClient.removeUnclosedOperation (c : ClientModel) (id : Nat) : ClientModel :=
  match c.unclosedOperations with
  | some ids => { c with unclosedOperations := some (ids.filter (fun x => x ≠ id)) }
  | none => c

/-- Mirrors RpcClient.registerUnclosedOperation, source lines 321 to 327:
throws ClientStateError unless the client is connected and the registry
still exists; otherwise adds the operation. -/
def RpcClient.registerUnclosedOperation (c : ClientModel) (id : Nat) :
    Except RpcError ClientModel :=
  match c.unclosedOperations with
  | none => Except.error operationRegistrationError
  | some ids =>
    if c.state = ClientState.Connected then
      Except.ok { c with unclosedOperations := some (ids ++ [id]) }
    else
      Except.error operationRegistrationError

/-- Mirrors RpcClient.isValidConnack, source lines 416 to 426. -/
def RpcClient.isValidConnack (message : Message) : Bool :=
  if message.type ≠ MessageType.ConnectAck then false
  else if (message.flags.getD 0) &&& MessageFlagsConnectionAccepted == 0 then false
  else true

/-- Mirrors RpcClient.newStream, source lines 387 to 397: ClientStateError
unless connected, InternalError when the transport-level allocation throws
(the allocation outcome is an input, since the transport is external). -/
def RpcClient.newStream (c : ClientModel) (alloc : Except CrtError Unit) :
    Except RpcError Unit :=
  if c.state ≠ ClientState.Connected then
    Except.error newStreamStateError
  else
    match alloc with
    | Except.error e => Except.error (newStreamFailedError e)
    | Except.ok _ => Except.ok ()

/-- The connect timer callback, source lines 222 to 227: if state is still
Connecting, move to Finished, reject with NetworkError and schedule a
deferred close.  The timer fires at most once; firing consumes it. -/
def stepTimerFires (c : ClientModel) : ClientModel :=
  if c.timerPending then
    let c1 := { c with timerPending := false }
    if c1.state = ClientState.Connecting then
      let c2 := settleWith c1 (Settle.rejected connectTimeoutError)
      { c2 with state := ClientState.Finished, pendingCloses := c2.pendingCloses + 1 }
    else c1
  else c

/-- A transport disconnection event, dispatched to whichever listener is
installed: the connecting-phase listener of source lines 230 to 236 (guarded
on state still Connecting), or the permanent listener of source lines 291
to 296 (record a reason for a nonzero code, schedule a deferred close). -/
def stepTransportDisconnect (c : ClientModel) (errorCode : Nat) : ClientModel :=
  if c.disconnectFired then c
  else
    let c1 := { c with disconnectFired := true }
    if c1.listenerConnecting then
      if c1.state = ClientState.Connecting then
        let c2 := settleWith c1 (Settle.rejected connectDisconnectedError)
        { c2 with state := ClientState.Finished, pendingCloses := c2.pendingCloses + 1 }
      else c1
    else if c1.listenerPermanent then
      let c2 :=
        if errorCode ≠ 0 then
          { c1 with disconnectionReason := some (CrtError.ofCode errorCode) }
        else c1
      { c2 with pendingCloses := c2.pendingCloses + 1 }
    else c1

/-- The catch block of the connect body, source lines 264 to 268, reached
when one of the awaited transport actions throws: set state to Finished,
reject with InternalError and schedule a deferred close.  Unlike the timer
and the connecting-phase disconnection listener, this continuation does not
check that state is still Connecting before acting. -/
def stepHandshakeFails (c : ClientModel) (e : CrtError) : ClientModel :=
  if c.handshakePending then
    let c1 := { c with handshakePending := false }
    let c2 := { c1 with state := ClientState.Finished }
    let c3 := settleWith c2 (Settle.rejected (connectFailedError e))
    { c3 with pendingCloses := c3.pendingCloses + 1 }
  else c

/-- The continuation of the connect body after the awaits return with a
connack, source lines 275 to 301: return silently if the outcome was
already decided, reject with ProtocolError on an invalid connack, and on
success swap the disconnection listeners, set emitDisconnectOnClose, move
to Connected and resolve. -/
def stepHandshakeCompletes (c : ClientModel) (connack : Message) : ClientModel :=
  if c.handshakePending then
    let c1 := { c with handshakePending := false }
    if c1.state ≠ ClientState.Connecting then c1
    else if ¬ RpcClient.isValidConnack connack then
      let c2 := { c1 with state := ClientState.Finished }
      let c3 := settleWith c2 (Settle.rejected invalidConnackError)
      { c3 with pendingCloses := c3.pendingCloses + 1 }
    else
      let c2 :=
        { c1 with
            listenerConnecting := false
            listenerPermanent := true
            emitDisconnectOnClose := true
            state := ClientState.Connected
            everConnected := true }
      settleWith c2 Settle.resolved
  else c

/-- The first call to connect, source lines 215 to 244: the promise whose
settlement the observed field tracks.  Later calls to connect are modelled
by RpcClient.connectEntry alone, since each returns a fresh promise. -/
def stepConnectCall (c : ClientModel) : ClientModel :=
  if c.connectCalled then c
  else
    let c0 := { c with connectCalled := true }
    let r := RpcClient.connectEntry c0
    match r.2.1 with
    | some e => settleWith r.1 (Settle.rejected e)
    | none => r.1

/-- Running one scheduled (setImmediate) close callback. -/
def stepRunScheduledClose (c : ClientModel) : ClientModel :=
  if 0 < c.pendingCloses then
    RpcClient.close { c with pendingCloses := c.pendingCloses - 1 }
  else c

/-- Delivery of one scheduled disconnection notification, source lines
361 to 363. -/
def stepDeliverDisconnectEmit (c : ClientModel) : ClientModel :=
  if 0 < c.pendingEmits then
    { c with
        pendingEmits := c.pendingEmits - 1
        emittedDisconnects := c.emittedDisconnects + 1 }
  else c

/-- One atomic block of the event loop: a user call, a timer or listener
callback, a promise continuation, or a scheduled task. -/
inductive Step where
  | connectCall
  | timerFires
  | transportDisconnect (errorCode : Nat)
  | handshakeFails (e : CrtError)
  | handshakeCompletes (connack : Message)
  | callClose
  | runScheduledClose
  | deliverDisconnectEmit
  | registerOperation (id : Nat)
  | removeOperation (id : Nat)
deriving DecidableEq

/-- Applies one atomic block to the client state. -/
def applyStep (c : ClientModel) (s : Step) : ClientModel :=
  match s with
  | Step.connectCall => stepConnectCall c
  | Step.timerFires => stepTimerFires c
  | Step.transportDisconnect ec => stepTransportDisconnect c ec
  | Step.handshakeFails e => stepHandshakeFails c e
  | Step.handshakeCompletes m => stepHandshakeCompletes c m
  | Step.callClose => RpcClient.close c
  | Step.runScheduledClose => stepRunScheduledClose c
  | Step.deliverDisconnectEmit => stepDeliverDisconnectEmit c
  | Step.registerOperation id =>
    match RpcClient.registerUnclosedOperation c id with
    | Except.ok c1 => c1
    | Except.error _ => c
  | Step.removeOperation id => RpcClient.removeUnclosedOperation c id

/-- The client state after an arbitrary interleaving of atomic blocks,
starting from a freshly constructed client. -/
def runSteps (steps : List Step) : ClientModel :=
  steps.foldl applyStep initClient

/-- The state of one OperationBase instance.  The sendFails flag is the
environment: whether the transport-level stream.sendMessage call used for
graceful termination would throw for this operation. -/
structure Operation where
  state : OperationState
  emitEndedOnClose : Bool
  hasJanitor : Bool
  sendFails : Bool
deriving DecidableEq

/-- Mirrors OperationBase.close, source lines 469 to 503: no-op when
already Closed; otherwise clear the owed ended notification (its emission
is a placeholder marker in the source), remember whether the stream was
Activated, move to Closed, drop the janitor, deregister from the client
(recorded as an effect, interpreted by the owning system), then when the
stream was active attempt the graceful termination message, catching a
throw and rescheduling it as an asynchronous error notification, and
finally schedule the stream close unconditionally.  The function is total:
no path propagates an exception to the caller. -/
def OperationBase.close (op : Operation) : Operation × List Eff :=
  if op.state = OperationState.Closed then (op, [])
  else
    let endedEffs := if op.emitEndedOnClose then [Eff.emitEndedPlaceholder] else []
    let shouldTerminateStream := op.state = OperationState.Activated
    let op1 :=
      { op with
          state := OperationState.Closed
          emitEndedOnClose := false
          hasJanitor := false }
    let termEffs :=
      if shouldTerminateStream then
        if op.sendFails then [Eff.scheduleErrorEmit] else [Eff.sendTerminate]
      else []
    (op1, endedEffs ++ [Eff.removeFromClient] ++ termEffs ++ [Eff.scheduleStreamClose])

/-- The synchronous prefix of OperationBase.activate, source lines 507 to
519: the state guard, then installing the ended listener, starting the
stream activation and keeping the janitor continuation. -/
def OperationBase.activateEntry (op : Operation) :
    Operation × Option RpcError × List Eff :=
  if op.state ≠ OperationState.None then
    (op, some activateTwiceError, [])
  else
    ({ op with hasJanitor := true }, none, [Eff.streamActivate])

/-- The continuation of activate after the activation promise settles,
source lines 521 to 531: on a throw, reject with the InternalError built
from an empty description string (the statement after the reject is a
placeholder marker in the source); on success set emitEndedOnClose and
resolve. -/
def OperationBase.activateFinish (op : Operation) (activationFailed : Bool)
    (e : CrtError) : Operation × Settle :=
  if activationFailed then
    (op, Settle.rejected (activateFailedError e))
  else
    ({ op with emitEndedOnClose := true }, Settle.resolved)

/-- A client together with the operations it has created, keyed by id. -/
structure RpcSystem where
  client : ClientModel
  ops : List (Nat × Operation)
deriving DecidableEq

/-- First entry with the given key, mirroring lookup in the operation
set. -/
def findOp (l : List (Nat × Operation)) (id : Nat) : Option Operation :=
  match l with
  | [] => none
  | p :: t => if p.1 = id then some p.2 else findOp t id

/-- Replaces the entries with the given key. -/
def updateOp (l : List (Nat × Operation)) (id : Nat) (op : Operation) :
    List (Nat × Operation) :=
  l.map (fun p => if p.1 = id then (id, op) else p)

/-- One call of operation.close() as performed on a member of the captured
registry snapshot during RpcClient.close: run OperationBase.close on the
operation and interpret its deregistration against the client (a no-op
once the registry is detached). -/
def RpcSystem.closeOperation (sys : RpcSystem) (id : Nat) :
    RpcSystem × List Eff :=
  match findOp sys.ops id with
  | none => (sys, [])
  | some op =>
    let r := OperationBase.close op
    ({ client := RpcClient.removeUnclosedOperation sys.client id
       ops := updateOp sys.ops id r.1 }, r.2)

/-- The cascade of RpcClient.close over the captured registry snapshot,
source lines 368 to 375: call close once on each captured operation, in
order, collecting effects and the list of operations closed. -/
def closeCascade (base : RpcSystem) : List Nat → RpcSystem × List Eff × List Nat
  | [] => (base, [], [])
  | id :: rest =>
    let r := RpcSystem.closeOperation base id
    let t := closeCascade r.1 rest
    (t.1, r.2 ++ t.2.1, id :: t.2.2)

/-- RpcClient.close in full, source lines 350 to 378: no-op when already
Closed; otherwise the notification block, state to Closed, capture and
detach the registry, close every captured operation, and finally close the
transport connection.  Returns the system, the effects in order, and the
list of operations on which close was invoked. -/
def RpcClient.closeSystem (sys : RpcSystem) : RpcSystem × List Eff × List Nat :=
  if sys.client.state = ClientState.Closed then (sys, [], [])
  else
    let c1 := closeEmitPhase sys.client
    let snapshot := c1.unclosedOperations
    let base : RpcSystem :=
      { client := { c1 with state := ClientState.Closed, unclosedOperations := none }
        ops := sys.ops }
    match snapshot with
    | none => (base, [Eff.connectionClose], [])
    | some ids =>
      let r := closeCascade base ids
      (r.1, r.2.1 ++ [Eff.connectionClose], r.2.2)

/-- Mirrors the OperationBase constructor, source lines 460 to 467,
composed with the parts of RpcClient it calls: allocate the stream via
newStream first, then register with the client.  Mutation of the client
happens only at the registration, after every point that can throw; a
failure returns the input system untouched together with the propagated
error. -/
def OperationBase.construct (sys : RpcSystem) (id : Nat)
    (alloc : Except CrtError Unit) (sendFails : Bool) :
    RpcSystem × Option RpcError :=
  match RpcClient.newStream sys.client alloc with
  | Except.error err => (sys, some err)
  | Except.ok _ =>
    match RpcClient.registerUnclosedOperation sys.client id with
    | Except.error err => (sys, some err)
    | Except.ok c1 =>
      ({ client := c1
         ops := sys.ops ++
           [(id, { state := OperationState.None
                   emitEndedOnClose := false
                   hasJanitor := false
                   sendFails := sendFails })] },
       none)

/-- The invariant of the trace machine, preserved by every atomic block:
the disconnection notification is owed only before any was scheduled or
delivered and only after a successful handshake, at most one notification
is ever scheduled or delivered, a successful handshake can no longer be
pending, and the promise of the first connect call is unsettled while the
state is None or Connecting. -/
def Inv (c : ClientModel) : Prop :=
  (c.emitDisconnectOnClose = true →
    c.pendingEmits = 0 ∧ c.emittedDisconnects = 0 ∧ c.everConnected = true)
  ∧ c.pendingEmits + c.emittedDisconnects ≤ 1
  ∧ (1 ≤ c.pendingEmits + c.emittedDisconnects →
      c.everConnected = true ∧ c.emitDisconnectOnClose = false)
  ∧ (c.everConnected = true → c.handshakePending = false ∧ c.connectCalled = true)
  ∧ (c.handshakePending = true → c.connectCalled = true)
  ∧ (c.state = ClientState.None → c.connectCalled = false ∧ c.observed = none)
  ∧ (c.state = ClientState.Connecting → c.observed = none ∧ c.connectCalled = true)

/-- A connack message accepted by the handshake: ConnectAck type with the
ConnectionAccepted bit set. -/
def exampleGoodConnack : Message :=
  { type := MessageType.ConnectAck, flags := some 1 }

/-- A connack message with the right type but without the accepted bit. -/
def exampleBadConnack : Message :=
  { type := MessageType.ConnectAck, flags := some 2 }

/-- A client that was closed without ever connecting. -/
def exampleClosedClient : ClientModel :=
  RpcClient.close initClient

/-- An operation that has not been activated. -/
def exampleNoneOperation : Operation :=
  { state := OperationState.None
    emitEndedOnClose := false
    hasJanitor := false
    sendFails := false }

/-- An activated operation whose graceful termination message send would
throw. -/
def exampleActivatedOperation : Operation :=
  { state := OperationState.Activated
    emitEndedOnClose := true
    hasJanitor := true
    sendFails := true }

/-- An already closed operation. -/
def exampleClosedOperation : Operation :=
  { state := OperationState.Closed
    emitEndedOnClose := false
    hasJanitor := false
    sendFails := false }

/-- A connected client tracking one unclosed operation with id 7. -/
def exampleSystem : RpcSystem :=
  { client :=
      { initClient with
          state := ClientState.Connected
          unclosedOperations := some [7] }
    ops := [(7, exampleActivatedOperation)] }

/-- The invariant holds of a freshly constructed client. -/
theorem inv_init : Inv initClient := by
  unfold Inv initClient
  simp

/- Preservation of the invariant by each atomic block, one lemma per
block. -/

set_option maxHeartbeats 1000000 in
theorem inv_step_connectCall (c : ClientModel) (h : Inv c) : Inv (applyStep c Step.connectCall) := by
  obtain ⟨h1, h2, h3, h4, h5, h6, h7⟩ := h
  by_cases hcc : c.connectCalled
  · simpa [applyStep, stepConnectCall, hcc] using ⟨h1, h2, h3, h4, h5, h6, h7⟩
  · by_cases hst : c.state = ClientState.None
    · obtain ⟨-, hobs⟩ := h6 hst
      have hEC : c.everConnected = false := by
        cases hE : c.everConnected
        · rfl
        · exact absurd (h4 hE).2 hcc
      refine ⟨?_, ?_, ?_, ?_, ?_, ?_, ?_⟩ <;>
        simp [applyStep, stepConnectCall, RpcClient.connectEntry, hst, hcc, hobs, hEC, h2] <;>
        simp_all
    · have hnc : c.state ≠ ClientState.Connecting := by
        intro hc
        exact hcc ((h7 hc).2 ▸ rfl)
      cases hobs : c.observed <;>
        refine ⟨?_, ?_, ?_, ?_, ?_, ?_, ?_⟩ <;>
        simp [applyStep, stepConnectCall, RpcClient.connectEntry, settleWith, hst, hcc, hnc, hobs, h2] <;>
        simp_all

set_option maxHeartbeats 1000000 in
theorem inv_step_timer (c : ClientModel) (h : Inv c) : Inv (applyStep c Step.timerFires) := by
  obtain ⟨h1, h2, h3, h4, h5, h6, h7⟩ := h
  by_cases htp : c.timerPending
  · by_cases hst : c.state = ClientState.Connecting
    · obtain ⟨hobs, hcalled⟩ := h7 hst
      refine ⟨?_, ?_, ?_, ?_, ?_, ?_, ?_⟩ <;>
        simp [applyStep, stepTimerFires, settleWith, htp, hst, hobs, h2] <;> simp_all
    · refine ⟨?_, ?_, ?_, ?_, ?_, ?_, ?_⟩ <;>
        simp [applyStep, stepTimerFires, htp, hst, h2] <;> simp_all
  · simpa [applyStep, stepTimerFires, htp] using ⟨h1, h2, h3, h4, h5, h6, h7⟩

set_option maxHeartbeats 1000000 in
theorem inv_step_disc (c : ClientModel) (ec : Nat) (h : Inv c) :
    Inv (applyStep c (Step.transportDisconnect ec)) := by
  obtain ⟨h1, h2, h3, h4, h5, h6, h7⟩ := h
  by_cases hdf : c.disconnectFired
  · simpa [applyStep, stepTransportDisconnect, hdf] using ⟨h1, h2, h3, h4, h5, h6, h7⟩
  · by_cases hlc : c.listenerConnecting
    · by_cases hst : c.state = ClientState.Connecting
      · obtain ⟨hobs, hcalled⟩ := h7 hst
        refine ⟨?_, ?_, ?_, ?_, ?_, ?_, ?_⟩ <;>
          simp [applyStep, stepTransportDisconnect, settleWith, hdf, hlc, hst, hobs, h2] <;> simp_all
      · refine ⟨?_, ?_, ?_, ?_, ?_, ?_, ?_⟩ <;>
          simp [applyStep, stepTransportDisconnect, hdf, hlc, hst, h2] <;> simp_all
    · by_cases hlp : c.listenerPermanent
      · by_cases hec : ec = 0 <;>
          refine ⟨?_, ?_, ?_, ?_, ?_, ?_, ?_⟩ <;>
          simp [applyStep, stepTransportDisconnect, hdf, hlc, hlp, hec, h2] <;> simp_all
      · refine ⟨?_, ?_, ?_, ?_, ?_, ?_, ?_⟩ <;>
          simp [applyStep, stepTransportDisconnect, hdf, hlc, hlp, h2] <;> simp_all

set_option maxHeartbeats 1000000 in
theorem inv_step_hsf (c : ClientModel) (e : CrtError) (h : Inv c) :
    Inv (applyStep c (Step.handshakeFails e)) := by
  obtain ⟨h1, h2, h3, h4, h5, h6, h7⟩ := h
  by_cases hhp : c.handshakePending
  · have hcalled := h5 hhp
    cases hobs : c.observed <;>
      refine ⟨?_, ?_, ?_, ?_, ?_, ?_, ?_⟩ <;>
      simp [applyStep, stepHandshakeFails, settleWith, hhp, hobs, hcalled, h2] <;> simp_all
  · simpa [applyStep, stepHandshakeFails, hhp] using ⟨h1, h2, h3, h4, h5, h6, h7⟩

set_option maxHeartbeats 1000000 in
theorem inv_step_hsc (c : ClientModel) (m : Message) (h : Inv c) :
    Inv (applyStep c (Step.handshakeCompletes m)) := by
  obtain ⟨h1, h2, h3, h4, h5, h6, h7⟩ := h
  by_cases hhp : c.handshakePending
  · by_cases hst : c.state = ClientState.Connecting
    · obtain ⟨hobs, hcalled⟩ := h7 hst
      by_cases hval : RpcClient.isValidConnack m
      · have hEC : c.everConnected = false := by
          cases hE : c.everConnected
          · rfl
          · have hf := (h4 hE).1
            rw [hhp] at hf
            exact absurd hf (by simp)
        have hz : c.pendingEmits = 0 ∧ c.emittedDisconnects = 0 := by
          rcases Nat.eq_zero_or_pos (c.pendingEmits + c.emittedDisconnects) with hq | hq
          · omega
          · have hEq := (h3 hq).1
            rw [hEC] at hEq
            exact absurd hEq (by simp)
        refine ⟨?_, ?_, ?_, ?_, ?_, ?_, ?_⟩ <;>
          simp [applyStep, stepHandshakeCompletes, settleWith, hhp, hst, hval, hobs,
            hz.1, hz.2, hcalled]
      · refine ⟨?_, ?_, ?_, ?_, ?_, ?_, ?_⟩ <;>
          simp [applyStep, stepHandshakeCompletes, settleWith, hhp, hst, hval, hobs, h2] <;>
          simp_all
    · refine ⟨?_, ?_, ?_, ?_, ?_, ?_, ?_⟩ <;>
        simp [applyStep, stepHandshakeCompletes, hhp, hst, h2] <;> simp_all
  · simpa [applyStep, stepHandshakeCompletes, hhp] using ⟨h1, h2, h3, h4, h5, h6, h7⟩

set_option maxHeartbeats 1000000 in
theorem inv_step_close (c : ClientModel) (h : Inv c) : Inv (applyStep c Step.callClose) := by
  obtain ⟨h1, h2, h3, h4, h5, h6, h7⟩ := h
  by_cases hst : c.state = ClientState.Closed
  · simpa [applyStep, RpcClient.close, hst] using ⟨h1, h2, h3, h4, h5, h6, h7⟩
  · by_cases hfl : c.emitDisconnectOnClose
    · obtain ⟨hp0, he0, hEC⟩ := h1 hfl
      refine ⟨?_, ?_, ?_, ?_, ?_, ?_, ?_⟩ <;>
        simp [applyStep, RpcClient.close, closeEmitPhase, hst, hfl, hp0, he0, hEC] <;> simp_all
    · refine ⟨?_, ?_, ?_, ?_, ?_, ?_, ?_⟩ <;>
        simp [applyStep, RpcClient.close, closeEmitPhase, hst, hfl, h2] <;> simp_all

set_option maxHeartbeats 1000000 in
theorem inv_step_runclose (c : ClientModel) (h : Inv c) :
    Inv (applyStep c Step.runScheduledClose) := by
  obtain ⟨h1, h2, h3, h4, h5, h6, h7⟩ := h
  by_cases hpc : 0 < c.pendingCloses
  · by_cases hst : c.state = ClientState.Closed
    · refine ⟨?_, ?_, ?_, ?_, ?_, ?_, ?_⟩ <;>
        simp [applyStep, stepRunScheduledClose, RpcClient.close, hpc, hst, h2] <;> simp_all
    · by_cases hfl : c.emitDisconnectOnClose
      · obtain ⟨hp0, he0, hEC⟩ := h1 hfl
        refine ⟨?_, ?_, ?_, ?_, ?_, ?_, ?_⟩ <;>
          simp [applyStep, stepRunScheduledClose, RpcClient.close, closeEmitPhase,
            hpc, hst, hfl, hp0, he0, hEC] <;> simp_all
      · refine ⟨?_, ?_, ?_, ?_, ?_, ?_, ?_⟩ <;>
          simp [applyStep, stepRunScheduledClose, RpcClient.close, closeEmitPhase,
            hpc, hst, hfl, h2] <;> simp_all
  · simpa [applyStep, stepRunScheduledClose, hpc] using ⟨h1, h2, h3, h4, h5, h6, h7⟩

set_option maxHeartbeats 1000000 in
theorem inv_step_emit (c : ClientModel) (h : Inv c) :
    Inv (applyStep c Step.deliverDisconnectEmit) := by
  obtain ⟨h1, h2, h3, h4, h5, h6, h7⟩ := h
  by_cases hpe : 0 < c.pendingEmits
  · have hfl : c.emitDisconnectOnClose = false := by
      cases hF : c.emitDisconnectOnClose
      · rfl
      · have := (h1 hF).1
        omega
    have hEC := (h3 (by omega)).1
    refine ⟨?_, ?_, ?_, ?_, ?_, ?_, ?_⟩ <;>
      simp [applyStep, stepDeliverDisconnectEmit, hpe, hfl, hEC] <;> simp_all <;> omega
  · simpa [applyStep, stepDeliverDisconnectEmit, hpe] using ⟨h1, h2, h3, h4, h5, h6, h7⟩

set_option maxHeartbeats 1000000 in
theorem inv_step_reg (c : ClientModel) (id : Nat) (h : Inv c) :
    Inv (applyStep c (Step.registerOperation id)) := by
  obtain ⟨h1, h2, h3, h4, h5, h6, h7⟩ := h
  cases hops : c.unclosedOperations with
  | none => simpa [applyStep, RpcClient.registerUnclosedOperation, hops] using
      ⟨h1, h2, h3, h4, h5, h6, h7⟩
  | some ids =>
    by_cases hst : c.state = ClientState.Connected
    · refine ⟨?_, ?_, ?_, ?_, ?_, ?_, ?_⟩ <;>
        simp [applyStep, RpcClient.registerUnclosedOperation, hops, hst, h2] <;> simp_all
    · simpa [applyStep, RpcClient.registerUnclosedOperation, hops, hst] using
        ⟨h1, h2, h3, h4, h5, h6, h7⟩

set_option maxHeartbeats 1000000 in
theorem inv_step_rem (c : ClientModel) (id : Nat) (h : Inv c) :
    Inv (applyStep c (Step.removeOperation id)) := by
  obtain ⟨h1, h2, h3, h4, h5, h6, h7⟩ := h
  cases hops : c.unclosedOperations with
  | none => simpa [applyStep, RpcClient.removeUnclosedOperation, hops] using
      ⟨h1, h2, h3, h4, h5, h6, h7⟩
  | some ids =>
    refine ⟨?_, ?_, ?_, ?_, ?_, ?_, ?_⟩ <;>
      simp [applyStep, RpcClient.removeUnclosedOperation, hops, h2] <;> simp_all


/-- Every atomic block of the event loop preserves the invariant. -/
theorem inv_step (c : ClientModel) (s : Step) (h : Inv c) : Inv (applyStep c s) := by
  cases s with
  | connectCall => exact inv_step_connectCall c h
  | timerFires => exact inv_step_timer c h
  | transportDisconnect ec => exact inv_step_disc c ec h
  | handshakeFails e => exact inv_step_hsf c e h
  | handshakeCompletes m => exact inv_step_hsc c m h
  | callClose => exact inv_step_close c h
  | runScheduledClose => exact inv_step_runclose c h
  | deliverDisconnectEmit => exact inv_step_emit c h
  | registerOperation id => exact inv_step_reg c id h
  | removeOperation id => exact inv_step_rem c id h

/-- The invariant holds after any interleaving from any invariant state. -/
theorem inv_foldl (l : List Step) (c : ClientModel) (h : Inv c) :
    Inv (l.foldl applyStep c) := by
  induction l generalizing c with
  | nil => simpa using h
  | cons s t ih => exact ih (applyStep c s) (inv_step c s h)

/-- The invariant holds along every execution of the client. -/
theorem inv_run (steps : List Step) : Inv (runSteps steps) :=
  inv_foldl steps initClient inv_init

set_option maxHeartbeats 1000000 in
theorem observed_mono (c : ClientModel) (s : Step) (o : Settle)
    (h : c.observed = some o) : (applyStep c s).observed = some o := by
  cases s with
  | connectCall =>
    by_cases hcc : c.connectCalled
    · simp [applyStep, stepConnectCall, hcc, h]
    · by_cases hst : c.state = ClientState.None
      · simp [applyStep, stepConnectCall, hcc, RpcClient.connectEntry, hst, h]
      · simp [applyStep, stepConnectCall, hcc, RpcClient.connectEntry, hst, settleWith, h]
  | timerFires =>
    by_cases htp : c.timerPending
    · by_cases hst : c.state = ClientState.Connecting <;>
        simp [applyStep, stepTimerFires, htp, hst, settleWith, h]
    · simp [applyStep, stepTimerFires, htp, h]
  | transportDisconnect ec =>
    by_cases hdf : c.disconnectFired
    · simp [applyStep, stepTransportDisconnect, hdf, h]
    · by_cases hlc : c.listenerConnecting
      · by_cases hst : c.state = ClientState.Connecting <;>
          simp [applyStep, stepTransportDisconnect, hdf, hlc, hst, settleWith, h]
      · by_cases hlp : c.listenerPermanent
        · by_cases hec : ec = 0 <;>
            simp [applyStep, stepTransportDisconnect, hdf, hlc, hlp, hec, h]
        · simp [applyStep, stepTransportDisconnect, hdf, hlc, hlp, h]
  | handshakeFails e =>
    by_cases hhp : c.handshakePending <;>
      simp [applyStep, stepHandshakeFails, hhp, settleWith, h]
  | handshakeCompletes m =>
    by_cases hhp : c.handshakePending
    · by_cases hst : c.state = ClientState.Connecting
      · by_cases hval : RpcClient.isValidConnack m <;>
          simp [applyStep, stepHandshakeCompletes, hhp, hst, hval, settleWith, h]
      · simp [applyStep, stepHandshakeCompletes, hhp, hst, h]
    · simp [applyStep, stepHandshakeCompletes, hhp, h]
  | callClose =>
    by_cases hst : c.state = ClientState.Closed
    · simp [applyStep, RpcClient.close, hst, h]
    · by_cases hfl : c.emitDisconnectOnClose <;>
        simp [applyStep, RpcClient.close, closeEmitPhase, hst, hfl, h]
  | runScheduledClose =>
    by_cases hpc : 0 < c.pendingCloses
    · by_cases hst : c.state = ClientState.Closed
      · simp [applyStep, stepRunScheduledClose, RpcClient.close, hpc, hst, h]
      · by_cases hfl : c.emitDisconnectOnClose <;>
          simp [applyStep, stepRunScheduledClose, RpcClient.close, closeEmitPhase,
            hpc, hst, hfl, h]
    · simp [applyStep, stepRunScheduledClose, hpc, h]
  | deliverDisconnectEmit =>
    by_cases hpe : 0 < c.pendingEmits <;>
      simp [applyStep, stepDeliverDisconnectEmit, hpe, h]
  | registerOperation id =>
    cases hops : c.unclosedOperations with
    | none => simp [applyStep, RpcClient.registerUnclosedOperation, hops, h]
    | some ids =>
      by_cases hst : c.state = ClientState.Connected <;>
        simp [applyStep, RpcClient.registerUnclosedOperation, hops, hst, h]
  | removeOperation id =>
    cases hops : c.unclosedOperations <;>
      simp [applyStep, RpcClient.removeUnclosedOperation, hops, h]
/-- OperationBase.close always leaves the operation in state Closed. -/
theorem closeOp_state_closed (op : Operation) :
    (OperationBase.close op).1.state = OperationState.Closed := by
  by_cases h : op.state = OperationState.Closed <;> simp [OperationBase.close, h]

/-- The notification block of close does not touch the registry. -/
theorem closeEmitPhase_registry (c : ClientModel) :
    (closeEmitPhase c).unclosedOperations = c.unclosedOperations := by
  by_cases h : c.emitDisconnectOnClose <;> simp [closeEmitPhase, h]

/-- Lookup after updating the same key. -/
theorem findOp_updateOp_self (l : List (Nat × Operation)) (id : Nat) (op : Operation) :
    findOp (updateOp l id op) id = (findOp l id).map (fun _ => op) := by
  induction l with
  | nil => simp [findOp, updateOp]
  | cons p t ih =>
    by_cases h : p.1 = id <;> simp [findOp, updateOp, h] <;> simpa [updateOp] using ih

/-- Lookup after updating a different key. -/
theorem findOp_updateOp_ne (l : List (Nat × Operation)) (x id : Nat) (op : Operation)
    (h : x ≠ id) : findOp (updateOp l id op) x = findOp l x := by
  induction l with
  | nil => simp [findOp, updateOp]
  | cons p t ih =>
    by_cases hp : p.1 = id
    · have hix : ¬ (id = x) := fun hc => h hc.symm
      have hpx : ¬ (p.1 = x) := by
        rw [hp]
        exact hix
      simp only [findOp, updateOp, List.map_cons, if_pos hp, if_neg hix, if_neg hpx]
      simpa [updateOp] using ih
    · by_cases hx : p.1 = x
      · simp [findOp, updateOp, hp, hx, h]
      · simp only [findOp, updateOp, List.map_cons, if_neg hp, if_neg hx]
        simpa [updateOp] using ih

/-- Closing one operation does not change the client once the registry is
detached. -/
theorem closeOperation_client_none (sys : RpcSystem) (id : Nat)
    (h : sys.client.unclosedOperations = none) :
    (RpcSystem.closeOperation sys id).1.client = sys.client := by
  cases hf : findOp sys.ops id <;>
    simp [RpcSystem.closeOperation, hf, RpcClient.removeUnclosedOperation, h]

/-- The cascade does not change the client once the registry is detached. -/
theorem closeCascade_client (ids : List Nat) (base : RpcSystem)
    (h : base.client.unclosedOperations = none) :
    (closeCascade base ids).1.client = base.client := by
  induction ids generalizing base with
  | nil => simp [closeCascade]
  | cons id rest ih =>
    have hc := closeOperation_client_none base id h
    have hreg : (RpcSystem.closeOperation base id).1.client.unclosedOperations = none := by
      rw [hc, h]
    simp [closeCascade]
    rw [ih (RpcSystem.closeOperation base id).1 hreg, hc]

/-- The cascade closes exactly the members of the snapshot, in order. -/
theorem closeCascade_ids (ids : List Nat) (base : RpcSystem) :
    (closeCascade base ids).2.2 = ids := by
  induction ids generalizing base with
  | nil => simp [closeCascade]
  | cons id rest ih => simp [closeCascade, ih]

/-- After closing an operation, the entry under its id (when present) is
in state Closed. -/
theorem closeOperation_entry (sys : RpcSystem) (id : Nat) :
    ∀ op2, findOp (RpcSystem.closeOperation sys id).1.ops id = some op2 →
      op2.state = OperationState.Closed := by
  intro op2 h2
  cases hf : findOp sys.ops id with
  | none => simp [RpcSystem.closeOperation, hf] at h2
  | some op =>
    rw [RpcSystem.closeOperation] at h2
    simp [hf, findOp_updateOp_self] at h2
    rw [← h2]
    exact closeOp_state_closed op

/-- Closing any operation preserves closedness of the entry under any
key. -/
theorem closeOperation_pres (sys : RpcSystem) (id x : Nat)
    (h : ∀ op2, findOp sys.ops x = some op2 → op2.state = OperationState.Closed) :
    ∀ op2, findOp (RpcSystem.closeOperation sys id).1.ops x = some op2 →
      op2.state = OperationState.Closed := by
  by_cases hx : x = id
  · rw [hx]
    exact closeOperation_entry sys id
  · intro op2 h2
    cases hf : findOp sys.ops id with
    | none =>
      rw [RpcSystem.closeOperation] at h2
      simp [hf] at h2
      exact h op2 h2
    | some op =>
      rw [RpcSystem.closeOperation] at h2
      simp [hf, findOp_updateOp_ne _ _ _ _ hx] at h2
      exact h op2 h2

/-- The cascade preserves closedness of any entry. -/
theorem closeCascade_pres (ids : List Nat) (base : RpcSystem) (x : Nat)
    (h : ∀ op2, findOp base.ops x = some op2 → op2.state = OperationState.Closed) :
    ∀ op2, findOp (closeCascade base ids).1.ops x = some op2 →
      op2.state = OperationState.Closed := by
  induction ids generalizing base with
  | nil => simpa [closeCascade] using h
  | cons id rest ih =>
    intro op2 h2
    exact ih (RpcSystem.closeOperation base id).1
      (closeOperation_pres base id x h) op2 (by simpa [closeCascade] using h2)

/-- After the cascade, every member of the snapshot maps to a closed
operation. -/
theorem closeCascade_closed (ids : List Nat) (base : RpcSystem) (x : Nat)
    (hx : x ∈ ids) :
    ∀ op2, findOp (closeCascade base ids).1.ops x = some op2 →
      op2.state = OperationState.Closed := by
  induction ids generalizing base with
  | nil => exact absurd hx (List.not_mem_nil x)
  | cons id rest ih =>
    intro op2 h2
    rcases List.mem_cons.mp hx with hxe | hxr
    · rw [hxe] at h2
      exact closeCascade_pres rest (RpcSystem.closeOperation base id).1 id
        (closeOperation_entry base id) op2 (by simpa [closeCascade] using h2)
    · exact ih (RpcSystem.closeOperation base id).1 hxr op2
        (by simpa [closeCascade] using h2)

/-- C1: over every interleaving of the asynchronous continuations of
connect, the timer, the disconnection listeners and close, a client
schedules and delivers at most one disconnection notification in its whole
lifetime, and any notification implies that a connect call previously
completed successfully (the success path that sets emitDisconnectOnClose
ran). -/
theorem C1_disconnect_at_most_once (steps : List Step) :
    (runSteps steps).pendingEmits + (runSteps steps).emittedDisconnects ≤ 1
    ∧ (1 ≤ (runSteps steps).pendingEmits + (runSteps steps).emittedDisconnects →
        (runSteps steps).everConnected = true) := by
  obtain ⟨-, h2, h3, -, -, -, -⟩ := inv_run steps
  exact ⟨h2, fun hge => (h3 hge).1⟩

/-- Witness for C1: a successful connect followed by two closes and the
notification delivery yields exactly one delivered notification. -/
theorem C1_disconnect_at_most_once_witness :
    (runSteps [Step.connectCall, Step.handshakeCompletes exampleGoodConnack, Step.callClose,
        Step.deliverDisconnectEmit, Step.callClose]).emittedDisconnects ≤ 1
    ∧ (runSteps [Step.connectCall, Step.handshakeCompletes exampleGoodConnack, Step.callClose,
        Step.deliverDisconnectEmit, Step.callClose]).everConnected = true := by
  have h := C1_disconnect_at_most_once [Step.connectCall,
    Step.handshakeCompletes exampleGoodConnack, Step.callClose,
    Step.deliverDisconnectEmit, Step.callClose]
  exact ⟨le_trans (Nat.le_add_left _ _) h.1, h.2 (by decide)⟩

/-- C2 evaluated at the failing interleaving: connect is called, the
connect timer fires (state becomes Finished, a close is scheduled), the
scheduled close runs (state becomes Closed), and then the pending
transport promise inside the connect body rejects.  The catch continuation
of the connect body sets state back to Finished: state regresses from
Closed to the earlier value Finished, contradicting the claimed
monotonicity. -/
theorem C2_state_regresses_after_timeout :
    (runSteps [Step.connectCall, Step.timerFires, Step.runScheduledClose]).state
        = ClientState.Closed
    ∧ (runSteps [Step.connectCall, Step.timerFires, Step.runScheduledClose,
          Step.handshakeFails (CrtError.ofString "connection closed")]).state
        = ClientState.Finished
    ∧ ClientState.rank ClientState.Finished < ClientState.rank ClientState.Closed := by
  decide

/-- Counterexample to C3 as stated: in a state reached after the timeout
already decided the outcome and the deferred close ran, the state is not
Connecting, yet the transport-exception continuation still acts: it
changes the state and schedules one more close. -/
theorem C3_exception_path_acts_when_not_connecting :
    (runSteps [Step.connectCall, Step.timerFires, Step.runScheduledClose]).state
        ≠ ClientState.Connecting
    ∧ (stepHandshakeFails (runSteps [Step.connectCall, Step.timerFires, Step.runScheduledClose])
          (CrtError.ofString "connection closed")).state
        ≠ (runSteps [Step.connectCall, Step.timerFires, Step.runScheduledClose]).state
    ∧ (stepHandshakeFails (runSteps [Step.connectCall, Step.timerFires, Step.runScheduledClose])
          (CrtError.ofString "connection closed")).pendingCloses
        = (runSteps [Step.connectCall, Step.timerFires, Step.runScheduledClose]).pendingCloses
            + 1 := by
  decide

/-- C3 (amended): the timeout, the transport disconnect during handshake,
the protocol-validation continuation and the success path each check that
state is still Connecting before acting, and so cause no state change when
they lose the race; the caller of connect observes at most one outcome
because promise settlement is first-wins; the transport-exception catch
path, however, performs no such check and always moves the state to
Finished and schedules a close. -/
theorem C3_first_decider_wins_amended :
    (∀ c : ClientModel, c.state ≠ ClientState.Connecting →
      (stepTimerFires c).state = c.state ∧ (stepTimerFires c).observed = c.observed
        ∧ (stepTimerFires c).pendingCloses = c.pendingCloses)
    ∧ (∀ (c : ClientModel) (ec : Nat), c.state ≠ ClientState.Connecting →
        c.listenerConnecting = true →
        (stepTransportDisconnect c ec).state = c.state
          ∧ (stepTransportDisconnect c ec).observed = c.observed
          ∧ (stepTransportDisconnect c ec).pendingCloses = c.pendingCloses)
    ∧ (∀ (c : ClientModel) (m : Message), c.state ≠ ClientState.Connecting →
        (stepHandshakeCompletes c m).state = c.state
          ∧ (stepHandshakeCompletes c m).observed = c.observed
          ∧ (stepHandshakeCompletes c m).pendingCloses = c.pendingCloses)
    ∧ (∀ (c : ClientModel) (e : CrtError), c.handshakePending = true →
        (stepHandshakeFails c e).state = ClientState.Finished
          ∧ (stepHandshakeFails c e).pendingCloses = c.pendingCloses + 1)
    ∧ (∀ (c : ClientModel) (s : Step) (o : Settle), c.observed = some o →
        (applyStep c s).observed = some o) := by
  refine ⟨?_, ?_, ?_, ?_, ?_⟩
  · intro c h
    by_cases htp : c.timerPending <;> simp [stepTimerFires, htp, h]
  · intro c ec h hlc
    by_cases hdf : c.disconnectFired <;> simp [stepTransportDisconnect, hdf, hlc, h]
  · intro c m h
    by_cases hhp : c.handshakePending <;> simp [stepHandshakeCompletes, hhp, h]
  · intro c e hhp
    cases hobs : c.observed <;> simp [stepHandshakeFails, settleWith, hhp, hobs]
  · exact fun c s o h => observed_mono c s o h

/-- Witness for the amended C3. -/
theorem C3_first_decider_wins_amended_witness :
    (stepTimerFires exampleClosedClient).state = exampleClosedClient.state
    ∧ (stepHandshakeFails (runSteps [Step.connectCall]) (CrtError.ofCode 5)).state
        = ClientState.Finished := by
  exact ⟨(C3_first_decider_wins_amended.1 exampleClosedClient (by decide)).1,
    (C3_first_decider_wins_amended.2.2.2.1 (runSteps [Step.connectCall])
      (CrtError.ofCode 5) (by decide)).1⟩

/-- C4: close on an already Closed client is a no-op; on the first
effective call the resulting client is Closed with the registry detached,
close is invoked exactly once on every operation of the captured snapshot
(each registered operation ends Closed), the transport connection is
closed last, and a reentrant close of the resulting system returns
immediately with no effects. -/
theorem C4_close_idempotent_cascade (sys : RpcSystem) (ids : List Nat) :
    (sys.client.state = ClientState.Closed → RpcClient.closeSystem sys = (sys, [], []))
    ∧ (sys.client.state ≠ ClientState.Closed →
        sys.client.unclosedOperations = some ids →
        ids.Nodup →
        (RpcClient.closeSystem sys).1.client.state = ClientState.Closed
        ∧ (RpcClient.closeSystem sys).1.client.unclosedOperations = none
        ∧ (RpcClient.closeSystem sys).2.2 = ids
        ∧ (∀ id ∈ ids, (RpcClient.closeSystem sys).2.2.count id = 1)
        ∧ (∀ id ∈ ids, ∀ op2, findOp (RpcClient.closeSystem sys).1.ops id = some op2 →
            op2.state = OperationState.Closed)
        ∧ (RpcClient.closeSystem sys).2.1.getLast? = some Eff.connectionClose
        ∧ RpcClient.closeSystem (RpcClient.closeSystem sys).1
            = ((RpcClient.closeSystem sys).1, [], [])) := by
  constructor
  · intro h
    simp [RpcClient.closeSystem, h]
  · intro hst hsnap hnodup
    have hreg1 : (closeEmitPhase sys.client).unclosedOperations = some ids := by
      rw [closeEmitPhase_registry, hsnap]
    obtain ⟨B, hBeq, hBreg, hBstate⟩ :
        ∃ B : RpcSystem,
          RpcClient.closeSystem sys
            = ((closeCascade B ids).1, (closeCascade B ids).2.1 ++ [Eff.connectionClose],
                (closeCascade B ids).2.2)
          ∧ B.client.unclosedOperations = none
          ∧ B.client.state = ClientState.Closed := by
      refine ⟨{ client := { closeEmitPhase sys.client with
                  state := ClientState.Closed, unclosedOperations := none }
                ops := sys.ops }, ?_, rfl, rfl⟩
      simp [RpcClient.closeSystem, hst, hreg1]
    have hclient := closeCascade_client ids B hBreg
    have hids := closeCascade_ids ids B
    refine ⟨?_, ?_, ?_, ?_, ?_, ?_, ?_⟩
    · rw [hBeq]
      show (closeCascade B ids).1.client.state = ClientState.Closed
      rw [hclient]
      exact hBstate
    · rw [hBeq]
      show (closeCascade B ids).1.client.unclosedOperations = none
      rw [hclient]
      exact hBreg
    · rw [hBeq]
      exact hids
    · intro id hid
      rw [hBeq]
      show (closeCascade B ids).2.2.count id = 1
      rw [hids]
      exact List.count_eq_one_of_mem hnodup hid
    · intro id hid op2 hfind
      rw [hBeq] at hfind
      exact closeCascade_closed ids B id hid op2 hfind
    · rw [hBeq]
      exact List.getLast?_concat _
    · rw [hBeq]
      have hcl : (closeCascade B ids).1.client.state = ClientState.Closed := by
        rw [hclient]
        exact hBstate
      simp [RpcClient.closeSystem, hcl]

/-- Witness for C4: closing a connected client tracking one operation. -/
theorem C4_close_idempotent_cascade_witness :
    (RpcClient.closeSystem exampleSystem).2.2 = [7]
    ∧ (RpcClient.closeSystem exampleSystem).1.client.state = ClientState.Closed
    ∧ RpcClient.closeSystem (RpcClient.closeSystem exampleSystem).1
        = ((RpcClient.closeSystem exampleSystem).1, [], []) := by
  have h := (C4_close_idempotent_cascade exampleSystem [7]).2 (by decide) (by decide) (by decide)
  exact ⟨h.2.2.1, h.1, h.2.2.2.2.2.2⟩

/-- C5: whenever the connect timer fires while state is still Connecting,
the connect promise is rejected with the NetworkError timeout error, state
becomes Finished, one more close is scheduled for the next tick, running
that scheduled close reaches Closed with no caller action, and the timer
was armed for connectTimeoutMs defaulting to 5000 ms. -/
theorem C5_timeout_rejects_and_closes (steps : List Step)
    (hconn : (runSteps steps).state = ClientState.Connecting)
    (htimer : (runSteps steps).timerPending = true) :
    (applyStep (runSteps steps) Step.timerFires).observed
        = some (Settle.rejected connectTimeoutError)
    ∧ connectTimeoutError.type = RpcErrorType.NetworkError
    ∧ (applyStep (runSteps steps) Step.timerFires).state = ClientState.Finished
    ∧ (applyStep (runSteps steps) Step.timerFires).pendingCloses
        = (runSteps steps).pendingCloses + 1
    ∧ (applyStep (applyStep (runSteps steps) Step.timerFires) Step.runScheduledClose).state
        = ClientState.Closed
    ∧ effectiveConnectTimeoutMs none = DEFAULT_CONNECT_TIMEOUT_MS
    ∧ DEFAULT_CONNECT_TIMEOUT_MS = 5000 := by
  obtain ⟨-, -, -, -, -, -, h7⟩ := inv_run steps
  obtain ⟨hobs, -⟩ := h7 hconn
  refine ⟨?_, rfl, ?_, ?_, ?_, rfl, rfl⟩ <;>
    by_cases hfl : (runSteps steps).emitDisconnectOnClose <;>
    simp [applyStep, stepTimerFires, stepRunScheduledClose, RpcClient.close, closeEmitPhase,
      settleWith, htimer, hconn, hobs, hfl]

/-- Witness for C5: the timer fires right after connect was called. -/
theorem C5_timeout_rejects_and_closes_witness :
    (applyStep (runSteps [Step.connectCall]) Step.timerFires).observed
        = some (Settle.rejected connectTimeoutError)
    ∧ (applyStep (applyStep (runSteps [Step.connectCall]) Step.timerFires)
          Step.runScheduledClose).state = ClientState.Closed := by
  have h := C5_timeout_rejects_and_closes [Step.connectCall] (by decide) (by decide)
  exact ⟨h.1, h.2.2.2.2.1⟩

/-- C6: a connack passes validation exactly when its type is ConnectAck
and its flags, treated as 0 when absent, carry the ConnectionAccepted bit;
while state is still Connecting, a message failing validation makes the
handshake continuation reject with the ProtocolError connack error, move
to Finished and schedule a deferred close; and the continuation resolves
only on a valid connack. -/
theorem C6_connack_validation :
    (∀ m : Message, RpcClient.isValidConnack m = true ↔
        (m.type = MessageType.ConnectAck
          ∧ (m.flags.getD 0) &&& MessageFlagsConnectionAccepted ≠ 0))
    ∧ (∀ (c : ClientModel) (m : Message),
        c.handshakePending = true → c.state = ClientState.Connecting →
        c.observed = none → RpcClient.isValidConnack m = false →
          (stepHandshakeCompletes c m).state = ClientState.Finished
          ∧ (stepHandshakeCompletes c m).observed
              = some (Settle.rejected invalidConnackError)
          ∧ invalidConnackError.type = RpcErrorType.ProtocolError
          ∧ (stepHandshakeCompletes c m).pendingCloses = c.pendingCloses + 1)
    ∧ (∀ (c : ClientModel) (m : Message), c.observed = none →
        (stepHandshakeCompletes c m).observed = some Settle.resolved →
        RpcClient.isValidConnack m = true) := by
  refine ⟨?_, ?_, ?_⟩
  · intro m
    by_cases h1 : m.type = MessageType.ConnectAck <;>
      by_cases h2 : (m.flags.getD 0) &&& MessageFlagsConnectionAccepted = 0 <;>
      simp [RpcClient.isValidConnack, h1, h2]
  · intro c m hhp hst hobs hval
    refine ⟨?_, ?_, rfl, ?_⟩ <;>
      simp [stepHandshakeCompletes, settleWith, hhp, hst, hval, hobs]
  · intro c m hobs hres
    by_cases hhp : c.handshakePending
    · by_cases hst : c.state = ClientState.Connecting
      · by_cases hval : RpcClient.isValidConnack m
        · exact hval
        · exfalso
          simp [stepHandshakeCompletes, settleWith, hhp, hst, hval, hobs] at hres
      · exfalso
        simp [stepHandshakeCompletes, hhp, hst, hobs] at hres
    · exfalso
      simp [stepHandshakeCompletes, hhp, hobs] at hres

/-- Witness for C6: a connack with the accepted bit missing is rejected
with ProtocolError. -/
theorem C6_connack_validation_witness :
    RpcClient.isValidConnack exampleGoodConnack = true
    ∧ RpcClient.isValidConnack exampleBadConnack = false
    ∧ (stepHandshakeCompletes (runSteps [Step.connectCall]) exampleBadConnack).state
        = ClientState.Finished
    ∧ (stepHandshakeCompletes (runSteps [Step.connectCall]) exampleBadConnack).observed
        = some (Settle.rejected invalidConnackError) := by
  have h := C6_connack_validation.2.1 (runSteps [Step.connectCall]) exampleBadConnack
    (by decide) (by decide) (by decide) (by decide)
  exact ⟨by decide, by decide, h.1, h.2.1⟩

/-- C7: the synchronous entry of connect rejects with ClientStateError and
changes nothing and performs no transport action whenever state is not
None, and the synchronous entry of activate does the same whenever the
operation state is not None. -/
theorem C7_connect_and_activate_once :
    (∀ c : ClientModel, c.state ≠ ClientState.None →
      RpcClient.connectEntry c = (c, some connectAlreadyCalledError, []))
    ∧ connectAlreadyCalledError.type = RpcErrorType.ClientStateError
    ∧ (∀ op : Operation, op.state ≠ OperationState.None →
        OperationBase.activateEntry op = (op, some activateTwiceError, []))
    ∧ activateTwiceError.type = RpcErrorType.ClientStateError := by
  refine ⟨?_, rfl, ?_, rfl⟩
  · intro c h
    simp [RpcClient.connectEntry, h]
  · intro op h
    simp [OperationBase.activateEntry, h]

/-- Witness for C7: a closed client and a closed operation. -/
theorem C7_connect_and_activate_once_witness :
    RpcClient.connectEntry exampleClosedClient
        = (exampleClosedClient, some connectAlreadyCalledError, [])
    ∧ OperationBase.activateEntry exampleClosedOperation
        = (exampleClosedOperation, some activateTwiceError, []) := by
  exact ⟨C7_connect_and_activate_once.1 exampleClosedClient (by decide),
    C7_connect_and_activate_once.2.2.1 exampleClosedOperation (by decide)⟩

/-- C8: OperationBase.close is a total function that never propagates an
exception: on an already Closed operation it is a complete no-op;
otherwise the operation ends Closed, the stream close is scheduled exactly
once and last (unconditionally), the graceful termination message is sent
exactly when the operation was Activated and the send does not throw, and
a throwing send is surfaced exactly as one scheduled asynchronous error
notification. -/
theorem C8_operation_close_never_throws (op : Operation) :
    (op.state = OperationState.Closed → OperationBase.close op = (op, []))
    ∧ (op.state ≠ OperationState.Closed →
        (OperationBase.close op).1.state = OperationState.Closed
        ∧ (OperationBase.close op).2.count Eff.scheduleStreamClose = 1
        ∧ (OperationBase.close op).2.getLast? = some Eff.scheduleStreamClose
        ∧ (OperationBase.close op).2.count Eff.scheduleErrorEmit
            = (if op.state = OperationState.Activated ∧ op.sendFails = true then 1 else 0)
        ∧ (OperationBase.close op).2.count Eff.sendTerminate
            = (if op.state = OperationState.Activated ∧ op.sendFails = false
                then 1 else 0)) := by
  constructor
  · intro h
    simp [OperationBase.close, h]
  · intro h
    by_cases ha : op.state = OperationState.Activated <;>
      by_cases hsf : op.sendFails <;>
      by_cases hee : op.emitEndedOnClose <;>
      simp [OperationBase.close, h, ha, hsf, hee] <;>
      decide

/-- Witness for C8: closing an activated operation whose termination send
throws schedules exactly one error notification; closing a closed
operation does nothing. -/
theorem C8_operation_close_never_throws_witness :
    (OperationBase.close exampleActivatedOperation).1.state = OperationState.Closed
    ∧ (OperationBase.close exampleActivatedOperation).2.count Eff.scheduleErrorEmit = 1
    ∧ OperationBase.close exampleClosedOperation = (exampleClosedOperation, []) := by
  have h := (C8_operation_close_never_throws exampleActivatedOperation).2 (by decide)
  refine ⟨h.1, ?_, (C8_operation_close_never_throws exampleClosedOperation).1 (by decide)⟩
  have h2 := h.2.2.2.1
  simpa [exampleActivatedOperation] using h2

/-- C9 evaluated at the failing input: the InternalError rejection built
by the activate failure path carries the empty string as its description,
while every other RpcError built by the core carries a non-empty
description.  This contradicts the claim that every produced RpcError has
a non-empty human-readable description. -/
theorem C9_activate_rejection_empty_description :
    (OperationBase.activateFinish exampleNoneOperation true
        (CrtError.ofString "activation failed")).2
      = Settle.rejected (activateFailedError (CrtError.ofString "activation failed"))
    ∧ (activateFailedError (CrtError.ofString "activation failed")).description = ""
    ∧ (activateFailedError (CrtError.ofString "activation failed")).type
        = RpcErrorType.InternalError
    ∧ connectAlreadyCalledError.description ≠ ""
    ∧ connectTimeoutError.description ≠ ""
    ∧ connectDisconnectedError.description ≠ ""
    ∧ (connectFailedError (CrtError.ofCode 1)).description ≠ ""
    ∧ invalidConnackError.description ≠ ""
    ∧ operationRegistrationError.description ≠ ""
    ∧ newStreamStateError.description ≠ ""
    ∧ (newStreamFailedError (CrtError.ofCode 1)).description ≠ ""
    ∧ activateTwiceError.description ≠ ""
    ∧ (connectionConstructionError (CrtError.ofCode 1)).description ≠ "" := by
  decide

/-- C10: operation construction allocates its stream before registering,
so a construction failure (ClientStateError when the client is not
Connected, InternalError when stream allocation throws) propagates the
error and leaves the whole system, in particular the set of unclosed
operations, unchanged. -/
theorem C10_construction_atomic (sys : RpcSystem) (id : Nat)
    (alloc : Except CrtError Unit) (sendFails : Bool) :
    (sys.client.state ≠ ClientState.Connected →
      OperationBase.construct sys id alloc sendFails = (sys, some newStreamStateError))
    ∧ (∀ e, sys.client.state = ClientState.Connected → alloc = Except.error e →
        OperationBase.construct sys id alloc sendFails = (sys, some (newStreamFailedError e)))
    ∧ newStreamStateError.type = RpcErrorType.ClientStateError
    ∧ (∀ e, (newStreamFailedError e).type = RpcErrorType.InternalError)
    ∧ (∀ err, (OperationBase.construct sys id alloc sendFails).2 = some err →
        (OperationBase.construct sys id alloc sendFails).1 = sys) := by
  refine ⟨?_, ?_, rfl, fun e => rfl, ?_⟩
  · intro h
    simp [OperationBase.construct, RpcClient.newStream, h]
  · intro e h ha
    subst ha
    simp [OperationBase.construct, RpcClient.newStream, h]
  · intro err
    cases hns : RpcClient.newStream sys.client alloc with
    | error e2 => simp [OperationBase.construct, hns]
    | ok u =>
      cases hreg : RpcClient.registerUnclosedOperation sys.client id with
      | error e2 => simp [OperationBase.construct, hns, hreg]
      | ok c1 => simp [OperationBase.construct, hns, hreg]

/-- Witness for C10: a failed allocation on a connected client and a
construction attempt on a closed client both leave the system untouched. -/
theorem C10_construction_atomic_witness :
    OperationBase.construct exampleSystem 9 (Except.error (CrtError.ofCode 3)) false
        = (exampleSystem, some (newStreamFailedError (CrtError.ofCode 3)))
    ∧ OperationBase.construct { client := exampleClosedClient, ops := [] } 9
        (Except.ok ()) false
        = ({ client := exampleClosedClient, ops := [] }, some newStreamStateError) := by
  exact ⟨(C10_construction_atomic exampleSystem 9 (Except.error (CrtError.ofCode 3)) false).2.1
      (CrtError.ofCode 3) (by decide) rfl,
    (C10_construction_atomic { client := exampleClosedClient, ops := [] } 9
      (Except.ok ()) false).1 (by decide)⟩

end EventstreamRpc

